import Mathlib

/-!
# Event-loop connection of sdbus-c++ (`src/EventLoopConnection.cpp`)

A shallow embedding of `sdbus::internal::EventLoopConnection` and of the two
factory functions `createSystemEventConnection` / `createSessionEventConnection`.

Modelling conventions.

* The sd-bus C library is an external collaborator.  What it answers during one
  call of a method is given by a record `SdBus` (one field per sd-bus function,
  holding the value that function returns); what the method asks of it is
  recorded, in program order, as a list of `SdBusCall`s.
* When `sd_bus_process` processes a message it runs the handlers registered on
  the bus, and these may call `sendReplyAsynchronously`; the replies they pass
  are part of the answer record (`handlerReplies`).
* A C++ exception is an `Except.error`; the member state after the call is
  returned next to it, so that the state left behind by a throwing call can be
  inspected.
* C `int` return codes are `Int`; `uint64_t` values are `Nat` below `2 ^ 64`
  with the wrap-around written out; the two narrowing `static_cast`s are
  written out as two's-complement reductions.
* `std::string` values are `String`s; what a C function reads from `s.c_str()`
  is `c_str s`, the characters of `s` before its first NUL.
* `assert`s are not part of the behaviour (they hold by the sd-bus contract).
-/

namespace Sdbus

/-! ## Data model -/

/-- Bus scope, `EventLoopConnection::BusType` of `EventLoopConnection.h`. -/
inductive BusType
  | eSystem
  | eSession
  deriving DecidableEq, Repr

/-- Modelled from the spec: the enumeration `ConnectionQueryAction` is declared in
`sdbus-c++/IConnection.h`, which is absent; `iterate()` uses these two values. -/
inductive ConnectionQueryAction
  | HasWorkToDo
  | WaitForEvent
  deriving DecidableEq, Repr

/-- Modelled from the spec: the struct `ConnectionPollRequest` is declared in
`sdbus-c++/IConnection.h`, which is absent; `requestPoll()` fills these three
fields (`int fd`, `short int events`, `int timeout`). -/
structure ConnectionPollRequest where
  fd : Int
  events : Int
  timeout : Int
  deriving DecidableEq, Repr

/-- Modelled from the spec: the class `sdbus::MethodReply` is declared in
`sdbus-c++/Message.h`, which is absent; a reply is the handle of the sd-bus
message it wraps. -/
structure MethodReply where
  msg_ : Nat
  deriving DecidableEq, Repr

/-- Modelled from the spec: `ConnectionError` is the `sdbus::Error` raised by the
macro `SDBUS_THROW_ERROR_IF` of `sdbus-c++/Error.h`, which is absent.  It carries
the text naming the failed operation and the numeric code; the human-readable
translation of the code is produced by the bus library and is not modelled. -/
structure ConnectionError where
  operation : String
  numericCode : Int
  deriving DecidableEq, Repr

/-- One request made to the sd-bus library.  Calls on a bus carry the handle
they are made on; a string argument is the C string the library reads. -/
inductive SdBusCall
  | sd_bus_open_user
  | sd_bus_open_system
  | sd_bus_flush (bus : Nat)
  | sd_bus_flush_close_unref (bus : Nat)
  | sd_bus_request_name (bus : Nat) (name : String)
  | sd_bus_process (bus : Nat)
  | sd_bus_get_fd (bus : Nat)
  | sd_bus_get_events (bus : Nat)
  | sd_bus_get_timeout (bus : Nat)
  | sd_bus_add_match (bus : Nat) (filter : String) (callback userData : Nat)
  | sd_bus_send (reply : MethodReply)
  deriving DecidableEq, Repr

/-- Answers of the sd-bus library during one method call: for each function the
`int` it returns, and for the functions with an out-parameter the value found
in that parameter afterwards (`bus`, `slot`, `usec`). -/
structure SdBus where
  sd_bus_open_user : Int
  sd_bus_open_system : Int
  /-- Handle stored in `bus` by the open call. -/
  bus : Nat
  sd_bus_flush : Int
  sd_bus_request_name : String → Int
  sd_bus_process : Int
  /-- Replies that the handlers run by `sd_bus_process` pass to
  `sendReplyAsynchronously`, in order, when that call processes a message. -/
  handlerReplies : List MethodReply
  sd_bus_get_fd : Int
  sd_bus_get_events : Int
  sd_bus_get_timeout : Int
  /-- Content of the local `uint64_t usec` once `sd_bus_get_timeout` has returned
  (whatever the variable holds when the call fails and does not write it). -/
  usec : Nat
  sd_bus_add_match : String → Int
  /-- Slot stored in `slot` by `sd_bus_add_match`. -/
  slot : Nat

/-- Outcome of a call: the value returned or the exception thrown, and the
sd-bus requests made on the way, in order. -/
structure Run (α : Type) where
  result : Except ConnectionError α
  calls : List SdBusCall

/-- Member state of `EventLoopConnection` (`bus_`, `asyncReplies_`, `busType_`).
The `std::queue` is a list with its front at the head. -/
structure EventLoopConnection where
  bus_ : Nat
  asyncReplies_ : List MethodReply
  busType_ : BusType
  deriving DecidableEq, Repr

/-! ## Helpers standing for absent declarations -/

/-- Modelled from the spec: the macro `SDBUS_THROW_ERROR_IF(cond, msg, errno)` of
`sdbus-c++/Error.h` (absent) throws a `ConnectionError` for operation `msg` with
numeric code `errno` when `cond` holds and does nothing otherwise. -/
def SDBUS_THROW_ERROR_IF (cond : Bool) (msg : String) (errNo : Int) : Except ConnectionError Unit :=
  if cond then .error ⟨msg, errNo⟩ else .ok ()

/-- Modelled from the spec: `MethodReply::send()` is defined in `Message.cpp`,
which is absent; the spec says the popped reply is transmitted on the bus. -/
def MethodReply.send (reply : MethodReply) : List SdBusCall :=
  [.sd_bus_send reply]

/-- The C string read from `s.c_str()`: the characters before the first NUL. -/
def c_str (s : String) : String :=
  ⟨s.data.takeWhile (fun c => c != Char.ofNat 0)⟩

/-- The value `uint64_t(-1)`. -/
def UINT64_MAX : Nat := 2 ^ 64 - 1

/-- Conversion `static_cast<int>` of an unsigned value: reduction modulo `2 ^ 32`
read as a two's-complement 32-bit number. -/
def static_cast_int (n : Nat) : Int :=
  let m : Nat := n % 2 ^ 32
  if m < 2 ^ 31 then (m : Int) else (m : Int) - 2 ^ 32

/-- Conversion `static_cast<short int>` of an `int`: reduction modulo `2 ^ 16`
read as a two's-complement 16-bit number. -/
def static_cast_short (r : Int) : Int :=
  let m : Int := r % 2 ^ 16
  if m < 2 ^ 15 then m else m - 2 ^ 16

/-! ## Operations of `EventLoopConnection` -/

namespace EventLoopConnection

/-- Static member `openBus(type)`: opens the user or the system bus. -/
def openBus (sd : SdBus) (type : BusType) : Run Nat :=
  let (r, call) := match type with
    | .eSession => (sd.sd_bus_open_user, SdBusCall.sd_bus_open_user)
    | .eSystem => (sd.sd_bus_open_system, SdBusCall.sd_bus_open_system)
  match SDBUS_THROW_ERROR_IF (r < 0) "Failed to open bus" (-r) with
  | .error e => ⟨.error e, [call]⟩
  | .ok _ => ⟨.ok sd.bus, [call]⟩

/-- Static member `finishHandshake(bus)`: flushes the bus. -/
def finishHandshake (sd : SdBus) (bus : Nat) : Run Unit :=
  let r := sd.sd_bus_flush
  match SDBUS_THROW_ERROR_IF (r < 0) "Failed to flush bus on opening" (-r) with
  | .error e => ⟨.error e, [.sd_bus_flush bus]⟩
  | .ok _ => ⟨.ok (), [.sd_bus_flush bus]⟩

/-- Constructor `EventLoopConnection(type)`.  When `finishHandshake` throws, the
already initialised member `bus_` is destroyed, which runs
`SdBusConnectionDeleter` (`sd_bus_flush_close_unref`); when `openBus` throws,
`bus_` is still empty and nothing is released. -/
def mk_ (sd : SdBus) (type : BusType) : Run EventLoopConnection :=
  match openBus sd type with
  | ⟨.error e, t⟩ => ⟨.error e, t⟩
  | ⟨.ok bus, t⟩ =>
    match finishHandshake sd bus with
    | ⟨.error e, t2⟩ => ⟨.error e, t ++ t2 ++ [.sd_bus_flush_close_unref bus]⟩
    | ⟨.ok _, t2⟩ => ⟨.ok { bus_ := bus, asyncReplies_ := [], busType_ := type }, t ++ t2⟩

/-- Method `requestName(name)`; the bus reads `name.c_str()`. -/
def requestName (self : EventLoopConnection) (sd : SdBus) (name : String) : Run Unit :=
  let r := sd.sd_bus_request_name (c_str name)
  match SDBUS_THROW_ERROR_IF (r < 0) "Failed to request bus name" (-r) with
  | .error e => ⟨.error e, [.sd_bus_request_name self.bus_ (c_str name)]⟩
  | .ok _ => ⟨.ok (), [.sd_bus_request_name self.bus_ (c_str name)]⟩

/-- Method `sendReplyAsynchronously(reply)`: pushes at the back of the queue. -/
def sendReplyAsynchronously (self : EventLoopConnection) (reply : MethodReply) :
    EventLoopConnection :=
  { self with asyncReplies_ := self.asyncReplies_ ++ [reply] }

/-- Effect on the members of the call `sd_bus_process(bus, nullptr)`.  When the
call processes a message (positive return) it runs the handlers registered with
`addObjectVTable` and `registerSignalHandler`, and each reply such a handler
defers reaches the connection through `sendReplyAsynchronously`.  A return of 0
(nothing processed) or a failure runs no handler. -/
def dispatchHandlers (self : EventLoopConnection) (sd : SdBus) : EventLoopConnection :=
  if sd.sd_bus_process > 0 then sd.handlerReplies.foldl sendReplyAsynchronously self
  else self

/-- Method `processPendingRequest()`; the second component is the member state
once `sd_bus_process` has returned. -/
def processPendingRequest (self : EventLoopConnection) (sd : SdBus) :
    Run Bool × EventLoopConnection :=
  let r := sd.sd_bus_process
  let after := self.dispatchHandlers sd
  match SDBUS_THROW_ERROR_IF (r < 0) "Failed to process bus requests" (-r) with
  | .error e => (⟨.error e, [.sd_bus_process self.bus_]⟩, after)
  | .ok _ => (⟨.ok (decide (r > 0)), [.sd_bus_process self.bus_]⟩, after)

/-- Method `iterate()`; the second component is the member state after the call. -/
def iterate (self : EventLoopConnection) (sd : SdBus) :
    Run ConnectionQueryAction × EventLoopConnection :=
  match self.processPendingRequest sd with
  | (⟨.error e, t⟩, after) => (⟨.error e, t⟩, after)
  | (⟨.ok true, t⟩, after) => (⟨.ok .HasWorkToDo, t⟩, after)
  | (⟨.ok false, t⟩, after) =>
    match after.asyncReplies_ with
    | reply :: rest =>
      (⟨.ok .HasWorkToDo, t ++ reply.send⟩, { after with asyncReplies_ := rest })
    | [] => (⟨.ok .WaitForEvent, t⟩, after)

/-- Method `requestPoll()`.  The value returned by `sd_bus_get_timeout` is not
looked at; `usec` is read as the call left it. -/
def requestPoll (self : EventLoopConnection) (sd : SdBus) : Run ConnectionPollRequest :=
  let bus := self.bus_
  let r := sd.sd_bus_get_fd
  match SDBUS_THROW_ERROR_IF (r < 0) "Failed to get bus descriptor" (-r) with
  | .error e => ⟨.error e, [.sd_bus_get_fd bus]⟩
  | .ok _ =>
    let fd := r
    let r := sd.sd_bus_get_events
    match SDBUS_THROW_ERROR_IF (r < 0) "Failed to get bus events" (-r) with
    | .error e => ⟨.error e, [.sd_bus_get_fd bus, .sd_bus_get_events bus]⟩
    | .ok _ =>
      let events := static_cast_short r
      let usec := sd.usec
      let timeout : Int :=
        if usec = UINT64_MAX then -1
        else static_cast_int ((usec + 999) % 2 ^ 64 / 1000)
      ⟨.ok ⟨fd, events, timeout⟩,
        [.sd_bus_get_fd bus, .sd_bus_get_events bus, .sd_bus_get_timeout bus]⟩

/-- Static member `composeSignalMatchFilter(objectPath, interfaceName, signalName)`:
the pieces are appended to the string builder one after the other. -/
def composeSignalMatchFilter (objectPath interfaceName signalName : String) : String :=
  let builder := ""
  let builder := builder ++ "type='signal',"
  let builder := builder ++ "interface='" ++ interfaceName ++ "',"
  let builder := builder ++ "member='" ++ signalName ++ "',"
  let builder := builder ++ "path='" ++ objectPath ++ "'"
  builder

/-- Method `registerSignalHandler(objectPath, interfaceName, signalName, callback, userData)`;
the bus reads `filter.c_str()`; returns the slot. -/
def registerSignalHandler (self : EventLoopConnection) (sd : SdBus)
    (objectPath interfaceName signalName : String) (callback userData : Nat) : Run Nat :=
  let filter := composeSignalMatchFilter objectPath interfaceName signalName
  let r := sd.sd_bus_add_match (c_str filter)
  match SDBUS_THROW_ERROR_IF (r < 0) "Failed to register signal handler" (-r) with
  | .error e => ⟨.error e, [.sd_bus_add_match self.bus_ (c_str filter) callback userData]⟩
  | .ok _ => ⟨.ok sd.slot, [.sd_bus_add_match self.bus_ (c_str filter) callback userData]⟩

end EventLoopConnection

/-! ## Factory functions -/

/-- Function `createSystemEventConnection(name)`.  When `requestName` throws, the
local `unique_ptr` destroys the connection, which releases the bus. -/
def createSystemEventConnection (sd : SdBus) (name : String) : Run EventLoopConnection :=
  match EventLoopConnection.mk_ sd .eSystem with
  | ⟨.error e, t⟩ => ⟨.error e, t⟩
  | ⟨.ok bus, t⟩ =>
    if !name.isEmpty then
      match bus.requestName sd name with
      | ⟨.error e, t2⟩ => ⟨.error e, t ++ t2 ++ [.sd_bus_flush_close_unref bus.bus_]⟩
      | ⟨.ok _, t2⟩ => ⟨.ok bus, t ++ t2⟩
    else ⟨.ok bus, t⟩

/-- Function `createSessionEventConnection(name)`. -/
def createSessionEventConnection (sd : SdBus) (name : String) : Run EventLoopConnection :=
  match EventLoopConnection.mk_ sd .eSession with
  | ⟨.error e, t⟩ => ⟨.error e, t⟩
  | ⟨.ok bus, t⟩ =>
    if !name.isEmpty then
      match bus.requestName sd name with
      | ⟨.error e, t2⟩ => ⟨.error e, t ++ t2 ++ [.sd_bus_flush_close_unref bus.bus_]⟩
      | ⟨.ok _, t2⟩ => ⟨.ok bus, t ++ t2⟩
    else ⟨.ok bus, t⟩

/-! ## Observations on a list of calls -/

/-- Replies transmitted by a list of calls, in order. -/
def transmitted : List SdBusCall → List MethodReply
  | [] => []
  | .sd_bus_send reply :: rest => reply :: transmitted rest
  | _ :: rest => transmitted rest

/-- Names requested by a list of calls, in order. -/
def nameRequests : List SdBusCall → List String
  | [] => []
  | .sd_bus_request_name _ name :: rest => name :: nameRequests rest
  | _ :: rest => nameRequests rest

/-! ## Scenarios and concrete inputs -/

/-- Successive `iterate()` calls made by the external loop, one record of
sd-bus answers per call; returns the outcome of every call and the member
state after the last one. -/
def iterateEach :
    List SdBus → EventLoopConnection → List (Run ConnectionQueryAction) × EventLoopConnection
  | [], c => ([], c)
  | sd :: sds, c =>
    let step := c.iterate sd
    let later := iterateEach sds step.2
    (step.1 :: later.1, later.2)

/-- A bus on which every sd-bus function succeeds, with nothing inbound, descriptor 3,
interest mask `POLLIN` and a timeout of one microsecond. -/
def idleBus : SdBus where
  sd_bus_open_user := 0
  sd_bus_open_system := 0
  bus := 7
  sd_bus_flush := 0
  sd_bus_request_name := fun _ => 1
  sd_bus_process := 0
  handlerReplies := []
  sd_bus_get_fd := 3
  sd_bus_get_events := 1
  sd_bus_get_timeout := 1
  usec := 1
  sd_bus_add_match := fun _ => 0
  slot := 9

/-- A session connection on handle 7 with the given deferred replies queued. -/
def connWith (replies : List MethodReply) : EventLoopConnection :=
  { bus_ := 7, asyncReplies_ := replies, busType_ := .eSession }

/-- The answer of the open call that `openBus(type)` makes. -/
def openAnswer (sd : SdBus) : BusType → Int
  | .eSystem => sd.sd_bus_open_system
  | .eSession => sd.sd_bus_open_user

/-- The open call that `openBus(type)` makes. -/
def openCallOf : BusType → SdBusCall
  | .eSystem => .sd_bus_open_system
  | .eSession => .sd_bus_open_user

/-- The answers of `idleBus`, except that `sd_bus_process` processes a message
(it returns 1) whose handler defers the reply 5. -/
def dispatchingBus : SdBus :=
  { idleBus with sd_bus_process := 1, handlerReplies := [⟨5⟩] }

/-- An interface name with a NUL inside: `a`, NUL, `b`. -/
def nulInterfaceName : String := ⟨['a', Char.ofNat 0, 'b']⟩

/-- A non-empty bus name that starts with a NUL: NUL, `x`. -/
def nulBusName : String := ⟨[Char.ofNat 0, 'x']⟩

/-- The answers of `idleBus`, except that the timeout is 2147483647001 microseconds,
the least one whose count of milliseconds, 2147483648, does not fit an `int`. -/
def longTimeoutBus : SdBus :=
  { idleBus with usec := 2147483647001 }

/-- The answers of `idleBus`, except that the timeout is `2 ^ 64 - 2` microseconds,
the largest value that is not the no-timeout value. -/
def hugeTimeoutBus : SdBus :=
  { idleBus with usec := 2 ^ 64 - 2 }

end Sdbus

/-! ## Theorems -/

namespace Sdbus
open EventLoopConnection

/-! ### Shared lemmas -/

theorem foldl_sendReplyAsynchronously (replies : List MethodReply) (c : EventLoopConnection) :
    replies.foldl sendReplyAsynchronously c =
      { c with asyncReplies_ := c.asyncReplies_ ++ replies } := by
  induction replies generalizing c with
  | nil => simp
  | cons r rs ih => simp [List.foldl_cons, ih, sendReplyAsynchronously]

theorem iterate_of_failure (self : EventLoopConnection) (sd : SdBus)
    (h : sd.sd_bus_process < 0) :
    self.iterate sd =
      (⟨.error ⟨"Failed to process bus requests", -sd.sd_bus_process⟩,
        [.sd_bus_process self.bus_]⟩, self) := by
  have h' : ¬ sd.sd_bus_process > 0 := not_lt.mpr (le_of_lt h)
  simp [iterate, processPendingRequest, dispatchHandlers, SDBUS_THROW_ERROR_IF, h, h']

theorem iterate_of_work (self : EventLoopConnection) (sd : SdBus)
    (h : 0 < sd.sd_bus_process) :
    self.iterate sd =
      (⟨.ok .HasWorkToDo, [.sd_bus_process self.bus_]⟩,
        { self with asyncReplies_ := self.asyncReplies_ ++ sd.handlerReplies }) := by
  have h' : ¬ sd.sd_bus_process < 0 := not_lt.mpr (le_of_lt h)
  simp [iterate, processPendingRequest, dispatchHandlers, SDBUS_THROW_ERROR_IF, h, h',
    foldl_sendReplyAsynchronously]

theorem iterate_of_idle_cons (self : EventLoopConnection) (sd : SdBus)
    (head : MethodReply) (rest : List MethodReply)
    (h : sd.sd_bus_process = 0) (hq : self.asyncReplies_ = head :: rest) :
    self.iterate sd =
      (⟨.ok .HasWorkToDo, [.sd_bus_process self.bus_, .sd_bus_send head]⟩,
        { self with asyncReplies_ := rest }) := by
  simp [iterate, processPendingRequest, dispatchHandlers, SDBUS_THROW_ERROR_IF, h, hq,
    MethodReply.send]

theorem iterate_of_idle_nil (self : EventLoopConnection) (sd : SdBus)
    (h : sd.sd_bus_process = 0) (hq : self.asyncReplies_ = []) :
    self.iterate sd = (⟨.ok .WaitForEvent, [.sd_bus_process self.bus_]⟩, self) := by
  simp [iterate, processPendingRequest, dispatchHandlers, SDBUS_THROW_ERROR_IF, h, hq]

theorem c_str_of_no_nul (s : String) (h : Char.ofNat 0 ∉ s.data) : c_str s = s := by
  have e : s.data.takeWhile (fun c => c != Char.ofNat 0) = s.data := by
    rw [List.takeWhile_eq_self_iff]
    intro c hc
    have hne : c ≠ Char.ofNat 0 := fun hEq => h (hEq ▸ hc)
    simpa using hne
  unfold c_str
  rw [e]

/-! ### The iteration engine -/

/-- C1, as stated, fails: `sd_bus_process` reports work (it returns 1), the handler
it ran deferred the reply 5, and after `iterate()` the queue, which held the
replies 1 and 2, holds 1, 2 and 5: it is not the queue it was. -/
theorem iterate_inbound_work_counterexample :
    0 < dispatchingBus.sd_bus_process ∧
    ((connWith [⟨1⟩, ⟨2⟩]).iterate dispatchingBus).1.result = .ok .HasWorkToDo ∧
    ((connWith [⟨1⟩, ⟨2⟩]).iterate dispatchingBus).2.asyncReplies_ = [⟨1⟩, ⟨2⟩, ⟨5⟩] ∧
    ((connWith [⟨1⟩, ⟨2⟩]).iterate dispatchingBus).2.asyncReplies_
      ≠ (connWith [⟨1⟩, ⟨2⟩]).asyncReplies_ := by
  refine ⟨by decide, rfl, rfl, by decide⟩

/-- C1, amended: when `sd_bus_process` reports work (a positive return value),
`iterate()` returns `HasWorkToDo`, its only request to the bus is that processing
call, so no deferred reply is transmitted, and it removes nothing from the
deferred-reply queue: afterwards the queue is the one it was (same elements, same
order) followed by the replies that the handlers run by the processing step
deferred, the other members are unchanged, and when those handlers deferred
nothing the member state is exactly what it was. -/
theorem iterate_inbound_work_keeps_queue (self : EventLoopConnection) (sd : SdBus)
    (h : 0 < sd.sd_bus_process) :
    (self.iterate sd).1.result = .ok .HasWorkToDo ∧
    (self.iterate sd).1.calls = [.sd_bus_process self.bus_] ∧
    transmitted (self.iterate sd).1.calls = [] ∧
    (self.iterate sd).2.asyncReplies_ = self.asyncReplies_ ++ sd.handlerReplies ∧
    (self.iterate sd).2.bus_ = self.bus_ ∧
    (self.iterate sd).2.busType_ = self.busType_ ∧
    (sd.handlerReplies = [] → (self.iterate sd).2 = self) := by
  rw [iterate_of_work self sd h]
  refine ⟨rfl, rfl, by simp [transmitted], rfl, rfl, rfl, ?_⟩
  intro he
  cases self
  simp [he]

/-- C1, amended, at concrete inputs: two replies queued and `sd_bus_process`
returning 1, first with a handler that defers the reply 5, then with none. -/
theorem iterate_inbound_work_keeps_queue_witness :
    (((connWith [⟨1⟩, ⟨2⟩]).iterate dispatchingBus).1.result = .ok .HasWorkToDo ∧
      ((connWith [⟨1⟩, ⟨2⟩]).iterate dispatchingBus).1.calls
        = [.sd_bus_process (connWith [⟨1⟩, ⟨2⟩]).bus_] ∧
      transmitted ((connWith [⟨1⟩, ⟨2⟩]).iterate dispatchingBus).1.calls = [] ∧
      ((connWith [⟨1⟩, ⟨2⟩]).iterate dispatchingBus).2.asyncReplies_
        = (connWith [⟨1⟩, ⟨2⟩]).asyncReplies_ ++ dispatchingBus.handlerReplies) ∧
    ((connWith [⟨1⟩, ⟨2⟩]).iterate { idleBus with sd_bus_process := 1 }).2
      = connWith [⟨1⟩, ⟨2⟩] :=
  let t := iterate_inbound_work_keeps_queue (connWith [⟨1⟩, ⟨2⟩]) dispatchingBus (by decide)
  ⟨⟨t.1, t.2.1, t.2.2.1, t.2.2.2.1⟩,
    (iterate_inbound_work_keeps_queue (connWith [⟨1⟩, ⟨2⟩])
      { idleBus with sd_bus_process := 1 } (by decide)).2.2.2.2.2.2 rfl⟩

/-- C2: when `sd_bus_process` reports no work and the queue is `head :: rest`,
`iterate()` transmits exactly `head`, leaves the queue equal to `rest`, keeps the
other members and returns `HasWorkToDo`; and whatever the bus answers and the
queue holds, a single call transmits at most one reply and shortens the queue by
at most one element. -/
theorem iterate_drains_exactly_head (self : EventLoopConnection) (sd : SdBus) :
    (∀ head rest, sd.sd_bus_process = 0 → self.asyncReplies_ = head :: rest →
      (self.iterate sd).1.result = .ok .HasWorkToDo ∧
      transmitted (self.iterate sd).1.calls = [head] ∧
      (self.iterate sd).2.asyncReplies_ = rest ∧
      (self.iterate sd).2.bus_ = self.bus_ ∧
      (self.iterate sd).2.busType_ = self.busType_) ∧
    (transmitted (self.iterate sd).1.calls).length ≤ 1 ∧
    self.asyncReplies_.length ≤ (self.iterate sd).2.asyncReplies_.length + 1 := by
  constructor
  · intro head rest h hq
    rw [iterate_of_idle_cons self sd head rest h hq]
    simp [transmitted]
  · rcases lt_trichotomy sd.sd_bus_process 0 with h | h | h
    · rw [iterate_of_failure self sd h]; simp [transmitted]
    · cases hq : self.asyncReplies_ with
      | nil => rw [iterate_of_idle_nil self sd h hq]; simp [transmitted, hq]
      | cons head rest => rw [iterate_of_idle_cons self sd head rest h hq]; simp [transmitted]
    · rw [iterate_of_work self sd h]
      simp [transmitted]
      omega

/-- C2 at a concrete input: three replies queued, nothing inbound. -/
theorem iterate_drains_exactly_head_witness :
    ((connWith [⟨1⟩, ⟨2⟩, ⟨3⟩]).iterate idleBus).1.result = .ok .HasWorkToDo ∧
    transmitted ((connWith [⟨1⟩, ⟨2⟩, ⟨3⟩]).iterate idleBus).1.calls = [⟨1⟩] ∧
    ((connWith [⟨1⟩, ⟨2⟩, ⟨3⟩]).iterate idleBus).2.asyncReplies_ = [⟨2⟩, ⟨3⟩] ∧
    ((connWith [⟨1⟩, ⟨2⟩, ⟨3⟩]).iterate idleBus).2.bus_ = (connWith [⟨1⟩, ⟨2⟩, ⟨3⟩]).bus_ ∧
    ((connWith [⟨1⟩, ⟨2⟩, ⟨3⟩]).iterate idleBus).2.busType_
      = (connWith [⟨1⟩, ⟨2⟩, ⟨3⟩]).busType_ :=
  (iterate_drains_exactly_head (connWith [⟨1⟩, ⟨2⟩, ⟨3⟩]) idleBus).1 ⟨1⟩ [⟨2⟩, ⟨3⟩] rfl rfl

/-- C4: `iterate()` returns `WaitForEvent` exactly when `sd_bus_process` reports no
work and the deferred-reply queue is empty; in that case nothing is transmitted,
the member state is unchanged, and a further call with the same bus answers
returns `WaitForEvent` again. -/
theorem iterate_waitForEvent_idempotent (self : EventLoopConnection) (sd : SdBus) :
    ((self.iterate sd).1.result = .ok .WaitForEvent ↔
      (sd.sd_bus_process = 0 ∧ self.asyncReplies_ = [])) ∧
    ((self.iterate sd).1.result = .ok .WaitForEvent →
      (self.iterate sd).2 = self ∧
      transmitted (self.iterate sd).1.calls = [] ∧
      ((self.iterate sd).2.iterate sd).1.result = .ok .WaitForEvent ∧
      ((self.iterate sd).2.iterate sd).2 = self) := by
  have key : (self.iterate sd).1.result = .ok .WaitForEvent ↔
      (sd.sd_bus_process = 0 ∧ self.asyncReplies_ = []) := by
    rcases lt_trichotomy sd.sd_bus_process 0 with h | h | h
    · rw [iterate_of_failure self sd h]
      simp [ne_of_lt h]
    · cases hq : self.asyncReplies_ with
      | nil => rw [iterate_of_idle_nil self sd h hq]; simp [h]
      | cons head rest => rw [iterate_of_idle_cons self sd head rest h hq]; simp
    · rw [iterate_of_work self sd h]
      simp [ne_of_gt h]
  refine ⟨key, fun hw => ?_⟩
  obtain ⟨h, hq⟩ := key.mp hw
  have e := iterate_of_idle_nil self sd h hq
  simp [e, transmitted]

/-- C4 at a concrete input: empty queue, nothing inbound. -/
theorem iterate_waitForEvent_idempotent_witness :
    ((connWith []).iterate idleBus).2 = connWith [] ∧
    transmitted ((connWith []).iterate idleBus).1.calls = [] ∧
    ((((connWith []).iterate idleBus).2).iterate idleBus).1.result = .ok .WaitForEvent ∧
    ((((connWith []).iterate idleBus).2).iterate idleBus).2 = connWith [] :=
  (iterate_waitForEvent_idempotent (connWith []) idleBus).2 rfl

/-- C8: when `sd_bus_process` reports a failure `r < 0`, `iterate()` throws the
`ConnectionError` of the processing step carrying the numeric code `-r`; its only
request to the bus is that processing call, so no deferred reply is transmitted,
and the member state, the deferred-reply queue in particular, is unchanged. -/
theorem iterate_processing_failure (self : EventLoopConnection) (sd : SdBus)
    (h : sd.sd_bus_process < 0) :
    (self.iterate sd).1.result =
      .error ⟨"Failed to process bus requests", -sd.sd_bus_process⟩ ∧
    (∀ e, (self.iterate sd).1.result = .error e → e.numericCode = -sd.sd_bus_process) ∧
    transmitted (self.iterate sd).1.calls = [] ∧
    (self.iterate sd).2.asyncReplies_ = self.asyncReplies_ ∧
    (self.iterate sd).2 = self := by
  rw [iterate_of_failure self sd h]
  refine ⟨rfl, ?_, by simp [transmitted], rfl, rfl⟩
  intro e he
  simp at he
  rw [← he]

/-- C8 at a concrete input: two replies queued, `sd_bus_process` returns -104. -/
theorem iterate_processing_failure_witness :
    ((connWith [⟨1⟩, ⟨2⟩]).iterate { idleBus with sd_bus_process := -104 }).1.result =
      .error ⟨"Failed to process bus requests", 104⟩ ∧
    transmitted ((connWith [⟨1⟩, ⟨2⟩]).iterate { idleBus with sd_bus_process := -104 }).1.calls
      = [] ∧
    ((connWith [⟨1⟩, ⟨2⟩]).iterate { idleBus with sd_bus_process := -104 }).2 =
      connWith [⟨1⟩, ⟨2⟩] :=
  let t := iterate_processing_failure (connWith [⟨1⟩, ⟨2⟩])
    { idleBus with sd_bus_process := -104 } (by decide)
  ⟨t.1, t.2.2.1, t.2.2.2.2⟩

/-! ### The deferred-reply queue -/

theorem iterateEach_drains (replies : List MethodReply) :
    ∀ (sds : List SdBus) (c : EventLoopConnection),
      c.asyncReplies_ = replies → sds.length = replies.length →
      (∀ sd ∈ sds, sd.sd_bus_process = 0) →
      (iterateEach sds c).1.map (fun out => out.result)
        = replies.map (fun _ => Except.ok ConnectionQueryAction.HasWorkToDo) ∧
      (iterateEach sds c).1.map (fun out => transmitted out.calls)
        = replies.map (fun r => [r]) ∧
      (iterateEach sds c).2 = { c with asyncReplies_ := [] } := by
  induction replies with
  | nil =>
    intro sds c hq hlen _
    have hs : sds = [] := List.length_eq_zero.mp (by simpa using hlen)
    subst hs
    cases c
    simp_all [iterateEach]
  | cons r rs ih =>
    intro sds c hq hlen hidle
    cases sds with
    | nil => simp at hlen
    | cons sd sds =>
      have h0 : sd.sd_bus_process = 0 := hidle sd (by simp)
      have hrest : ∀ x ∈ sds, x.sd_bus_process = 0 := fun x hx => hidle x (by simp [hx])
      have hl : sds.length = rs.length := by simpa using hlen
      have step := iterate_of_idle_cons c sd r rs h0 hq
      obtain ⟨h1, h2, h3⟩ := ih sds { c with asyncReplies_ := rs } rfl hl hrest
      simp only [iterateEach, step, List.map_cons, h1, h2, h3]
      simp [transmitted]

theorem flatten_map_singleton (l : List MethodReply) :
    (l.map (fun r => [r])).flatten = l := by
  induction l with
  | nil => rfl
  | cons r rs ih => simp [ih]

/-- C3: deferred replies leave in FIFO order.  Starting from a connection with an
empty queue, pass the replies `r1 … rn` in that order to
`sendReplyAsynchronously()`; then `n` calls of `iterate()` during which
`sd_bus_process` reports no work each return `HasWorkToDo`, the i-th of them
transmits exactly `ri`, so that the replies transmitted overall are `r1 … rn` in
that order, and the queue is empty afterwards (the connection is back in its
starting state). -/
theorem deferred_replies_fifo (c0 : EventLoopConnection) (replies : List MethodReply)
    (sds : List SdBus) (hq : c0.asyncReplies_ = []) (hlen : sds.length = replies.length)
    (hidle : ∀ sd ∈ sds, sd.sd_bus_process = 0) :
    (iterateEach sds (replies.foldl sendReplyAsynchronously c0)).1.map (fun out => out.result)
      = replies.map (fun _ => Except.ok ConnectionQueryAction.HasWorkToDo) ∧
    (iterateEach sds (replies.foldl sendReplyAsynchronously c0)).1.map
        (fun out => transmitted out.calls)
      = replies.map (fun r => [r]) ∧
    ((iterateEach sds (replies.foldl sendReplyAsynchronously c0)).1.map
        (fun out => transmitted out.calls)).flatten = replies ∧
    (iterateEach sds (replies.foldl sendReplyAsynchronously c0)).2.asyncReplies_ = [] ∧
    (iterateEach sds (replies.foldl sendReplyAsynchronously c0)).2 = c0 := by
  have hc : (replies.foldl sendReplyAsynchronously c0).asyncReplies_ = replies := by
    simp [foldl_sendReplyAsynchronously, hq]
  obtain ⟨h1, h2, h3⟩ :=
    iterateEach_drains replies sds (replies.foldl sendReplyAsynchronously c0) hc hlen hidle
  refine ⟨h1, h2, ?_, ?_, ?_⟩
  · rw [h2, flatten_map_singleton]
  · rw [h3]
  · rw [h3, foldl_sendReplyAsynchronously]
    cases c0
    simp_all

/-- C3 at a concrete input, the case of the spec: two replies, two idle calls. -/
theorem deferred_replies_fifo_witness :
    (iterateEach [idleBus, idleBus]
        ([(⟨10⟩ : MethodReply), ⟨20⟩].foldl sendReplyAsynchronously (connWith []))).1.map
        (fun out => out.result)
      = [(⟨10⟩ : MethodReply), ⟨20⟩].map
          (fun _ => Except.ok ConnectionQueryAction.HasWorkToDo) ∧
    (iterateEach [idleBus, idleBus]
        ([(⟨10⟩ : MethodReply), ⟨20⟩].foldl sendReplyAsynchronously (connWith []))).1.map
        (fun out => transmitted out.calls)
      = [(⟨10⟩ : MethodReply), ⟨20⟩].map (fun r => [r]) ∧
    ((iterateEach [idleBus, idleBus]
        ([(⟨10⟩ : MethodReply), ⟨20⟩].foldl sendReplyAsynchronously (connWith []))).1.map
        (fun out => transmitted out.calls)).flatten = [⟨10⟩, ⟨20⟩] ∧
    (iterateEach [idleBus, idleBus]
        ([(⟨10⟩ : MethodReply), ⟨20⟩].foldl sendReplyAsynchronously
          (connWith []))).2.asyncReplies_ = [] ∧
    (iterateEach [idleBus, idleBus]
        ([(⟨10⟩ : MethodReply), ⟨20⟩].foldl sendReplyAsynchronously (connWith []))).2
      = connWith [] :=
  deferred_replies_fifo (connWith []) [⟨10⟩, ⟨20⟩] [idleBus, idleBus] rfl rfl (by decide)

/-! ### The poll descriptor provider -/

theorem static_cast_short_of_fits (r : Int) (h0 : 0 ≤ r) (h1 : r ≤ 32767) :
    static_cast_short r = r := by
  unfold static_cast_short
  simp only []
  split <;> omega

theorem static_cast_int_of_fits (n : Nat) (h : n ≤ 2147483647) :
    static_cast_int n = (n : Int) := by
  unfold static_cast_int
  simp only []
  split <;> omega

theorem requestPoll_success (self : EventLoopConnection) (sd : SdBus)
    (hfd : 0 ≤ sd.sd_bus_get_fd) (hev : 0 ≤ sd.sd_bus_get_events) :
    self.requestPoll sd =
      ⟨.ok ⟨sd.sd_bus_get_fd, static_cast_short sd.sd_bus_get_events,
          if sd.usec = UINT64_MAX then -1
          else static_cast_int ((sd.usec + 999) % 2 ^ 64 / 1000)⟩,
        [.sd_bus_get_fd self.bus_, .sd_bus_get_events self.bus_,
          .sd_bus_get_timeout self.bus_]⟩ := by
  have h1 : ¬ sd.sd_bus_get_fd < 0 := not_lt.mpr hfd
  have h2 : ¬ sd.sd_bus_get_events < 0 := not_lt.mpr hev
  simp [requestPoll, SDBUS_THROW_ERROR_IF, h1, h2]

/-- C5, as stated, fails: with a timeout of 2147483647001 microseconds (not the
no-timeout value) `requestPoll()` returns the timeout -2147483648, which is not the
least count of milliseconds covering the deadline (it covers nothing); and with
`2 ^ 64 - 2` microseconds it returns 0, so the caller wakes at once, long before
the deadline. -/
theorem requestPoll_timeout_counterexample :
    longTimeoutBus.usec ≠ UINT64_MAX ∧
    ((connWith []).requestPoll longTimeoutBus).result = .ok ⟨3, 1, -2147483648⟩ ∧
    ¬ ((longTimeoutBus.usec : Int) ≤ (-2147483648 : Int) * 1000) ∧
    hugeTimeoutBus.usec ≠ UINT64_MAX ∧
    ((connWith []).requestPoll hugeTimeoutBus).result = .ok ⟨3, 1, 0⟩ ∧
    ¬ ((hugeTimeoutBus.usec : Int) ≤ (0 : Int) * 1000) := by
  refine ⟨by decide, rfl, by decide, by decide, rfl, by decide⟩

/-- C5, amended: when the descriptor and interest-mask queries succeed,
`requestPoll()` returns a poll request whose timeout is, for every `usec` up to
2147483647000 microseconds (the values whose count of milliseconds fits the `int`
field), the least `ms` with `ms * 1000 ≥ usec`, that is `usec / 1000` rounded up;
and for the no-timeout value `UINT64_MAX` it is the sentinel -1, not 0. -/
theorem requestPoll_timeout_rounds_up (self : EventLoopConnection) (sd : SdBus)
    (hfd : 0 ≤ sd.sd_bus_get_fd) (hev : 0 ≤ sd.sd_bus_get_events) :
    ∃ req, (self.requestPoll sd).result = .ok req ∧
      (sd.usec = UINT64_MAX → req.timeout = -1 ∧ req.timeout ≠ 0) ∧
      (sd.usec ≤ 2147483647000 →
        (sd.usec : Int) ≤ req.timeout * 1000 ∧
        (∀ ms : Int, (sd.usec : Int) ≤ ms * 1000 → req.timeout ≤ ms) ∧
        0 ≤ req.timeout ∧
        (sd.usec = 1 → req.timeout = 1) ∧
        (sd.usec = 1000 → req.timeout = 1)) := by
  rw [requestPoll_success self sd hfd hev]
  refine ⟨_, rfl, ?_, ?_⟩
  · intro hu
    simp [hu]
  · intro hu
    have hne : sd.usec ≠ UINT64_MAX := by
      unfold UINT64_MAX
      omega
    have hwrap : (sd.usec + 999) % 2 ^ 64 = sd.usec + 999 := by
      apply Nat.mod_eq_of_lt
      omega
    have hfit : (sd.usec + 999) / 1000 ≤ 2147483647 := by omega
    simp only [hne, if_false, hwrap, static_cast_int_of_fits _ hfit]
    refine ⟨by omega, fun ms hms => by omega, by omega, fun h => by omega, fun h => by omega⟩

/-- C5, amended, at a concrete input: a timeout of one microsecond. -/
theorem requestPoll_timeout_rounds_up_witness :
    ∃ req, ((connWith []).requestPoll idleBus).result = .ok req ∧
      (idleBus.usec = UINT64_MAX → req.timeout = -1 ∧ req.timeout ≠ 0) ∧
      (idleBus.usec ≤ 2147483647000 →
        (idleBus.usec : Int) ≤ req.timeout * 1000 ∧
        (∀ ms : Int, (idleBus.usec : Int) ≤ ms * 1000 → req.timeout ≤ ms) ∧
        0 ≤ req.timeout ∧
        (idleBus.usec = 1 → req.timeout = 1) ∧
        (idleBus.usec = 1000 → req.timeout = 1)) :=
  requestPoll_timeout_rounds_up (connWith []) idleBus (by decide) (by decide)

/-- C9: if the descriptor query returns `r < 0`, `requestPoll()` throws with code
`-r` after that single query; otherwise, if the interest-mask query returns
`r < 0`, it throws with code `-r` after those two queries; when both succeed it
does not throw and returns `fd` equal to the descriptor query's result and
`events` equal to the interest-mask query's result, for every result that is a
poll event mask, that is a value of `short int` (at most 32767), the cast to
`short int` being the identity there. -/
theorem requestPoll_descriptor_and_events (self : EventLoopConnection) (sd : SdBus) :
    (sd.sd_bus_get_fd < 0 →
      (self.requestPoll sd).result =
        .error ⟨"Failed to get bus descriptor", -sd.sd_bus_get_fd⟩ ∧
      (self.requestPoll sd).calls = [.sd_bus_get_fd self.bus_]) ∧
    (0 ≤ sd.sd_bus_get_fd → sd.sd_bus_get_events < 0 →
      (self.requestPoll sd).result =
        .error ⟨"Failed to get bus events", -sd.sd_bus_get_events⟩ ∧
      (self.requestPoll sd).calls = [.sd_bus_get_fd self.bus_, .sd_bus_get_events self.bus_]) ∧
    (0 ≤ sd.sd_bus_get_fd → 0 ≤ sd.sd_bus_get_events →
      ∃ req, (self.requestPoll sd).result = .ok req ∧
        req.fd = sd.sd_bus_get_fd ∧
        req.events = static_cast_short sd.sd_bus_get_events ∧
        (sd.sd_bus_get_events ≤ 32767 → req.events = sd.sd_bus_get_events)) := by
  refine ⟨?_, ?_, ?_⟩
  · intro h
    simp [requestPoll, SDBUS_THROW_ERROR_IF, h]
  · intro h0 h
    have h1 : ¬ sd.sd_bus_get_fd < 0 := not_lt.mpr h0
    simp [requestPoll, SDBUS_THROW_ERROR_IF, h, h1]
  · intro hfd hev
    rw [requestPoll_success self sd hfd hev]
    exact ⟨_, rfl, rfl, rfl, fun h => static_cast_short_of_fits _ hev h⟩

/-- C9 at concrete inputs: a failing descriptor query, a failing
interest-mask query, and both succeeding. -/
theorem requestPoll_descriptor_and_events_witness :
    (((connWith []).requestPoll { idleBus with sd_bus_get_fd := -9 }).result =
        .error ⟨"Failed to get bus descriptor", - (-9)⟩ ∧
      ((connWith []).requestPoll { idleBus with sd_bus_get_fd := -9 }).calls =
        [.sd_bus_get_fd (connWith []).bus_]) ∧
    (((connWith []).requestPoll { idleBus with sd_bus_get_events := -107 }).result =
        .error ⟨"Failed to get bus events", - (-107)⟩ ∧
      ((connWith []).requestPoll { idleBus with sd_bus_get_events := -107 }).calls =
        [.sd_bus_get_fd (connWith []).bus_, .sd_bus_get_events (connWith []).bus_]) ∧
    (∃ req, ((connWith []).requestPoll idleBus).result = .ok req ∧
        req.fd = idleBus.sd_bus_get_fd ∧
        req.events = static_cast_short idleBus.sd_bus_get_events ∧
        (idleBus.sd_bus_get_events ≤ 32767 → req.events = idleBus.sd_bus_get_events)) :=
  ⟨(requestPoll_descriptor_and_events (connWith [])
      { idleBus with sd_bus_get_fd := -9 }).1 (by decide),
    (requestPoll_descriptor_and_events (connWith [])
      { idleBus with sd_bus_get_events := -107 }).2.1 (by decide) (by decide),
    (requestPoll_descriptor_and_events (connWith []) idleBus).2.2 (by decide) (by decide)⟩

theorem no_nul_in_rule (P I M : String) (hP : Char.ofNat 0 ∉ P.data)
    (hI : Char.ofNat 0 ∉ I.data) (hM : Char.ofNat 0 ∉ M.data) :
    Char.ofNat 0 ∉
      ("type='signal',interface='" ++ I ++ "',member='" ++ M ++ "',path='" ++ P ++ "'").data := by
  have h1 : Char.ofNat 0 ∉ "type='signal',interface='".data := by decide
  have h2 : Char.ofNat 0 ∉ "',member='".data := by decide
  have h3 : Char.ofNat 0 ∉ "',path='".data := by decide
  have h4 : Char.ofNat 0 ∉ "'".data := by decide
  simp only [String.data_append, List.mem_append, not_or]
  exact ⟨⟨⟨⟨⟨⟨h1, hI⟩, h2⟩, hM⟩, h3⟩, hP⟩, h4⟩

/-- C6, as stated, fails: with the interface name `a`, NUL, `b` the rule that
`registerSignalHandler()` hands to `sd_bus_add_match` is `type='signal',interface='a`,
the composed text cut at its first NUL, not the full text. -/
theorem signal_match_rule_counterexample :
    ((connWith []).registerSignalHandler idleBus "/p" nulInterfaceName "Sig" 0 0).calls =
      [.sd_bus_add_match 7 "type='signal',interface='a" 0 0] ∧
    "type='signal',interface='a" ≠
      "type='signal',interface='" ++ nulInterfaceName ++ "',member='" ++ "Sig" ++
        "',path='" ++ "/p" ++ "'" := by
  refine ⟨by decide, by decide⟩

/-- C6, amended: for every object path `P`, interface name `I` and signal name `M`,
`composeSignalMatchFilter(P, I, M)` is exactly the text
`type='signal',interface='I',member='M',path='P'` (fixed field order, the three
values copied verbatim between single quotes, commas between the fields, nothing
else); the one request `registerSignalHandler()` makes to the bus is
`sd_bus_add_match` with the C string of that text as its match rule, whatever the
bus answers; and when `P`, `I` and `M` hold no NUL character the rule installed is
exactly that text. -/
theorem signal_match_rule_text (self : EventLoopConnection) (sd : SdBus)
    (P I M : String) (callback userData : Nat) :
    composeSignalMatchFilter P I M =
      "type='signal',interface='" ++ I ++ "',member='" ++ M ++ "',path='" ++ P ++ "'" ∧
    composeSignalMatchFilter P I M =
      String.join ["type=", "'signal'", ",", "interface=", "'", I, "'", ",",
        "member=", "'", M, "'", ",", "path=", "'", P, "'"] ∧
    (self.registerSignalHandler sd P I M callback userData).calls =
      [.sd_bus_add_match self.bus_
        (c_str
          ("type='signal',interface='" ++ I ++ "',member='" ++ M ++ "',path='" ++ P ++ "'"))
        callback userData] ∧
    (Char.ofNat 0 ∉ P.data → Char.ofNat 0 ∉ I.data → Char.ofNat 0 ∉ M.data →
      (self.registerSignalHandler sd P I M callback userData).calls =
        [.sd_bus_add_match self.bus_
          ("type='signal',interface='" ++ I ++ "',member='" ++ M ++ "',path='" ++ P ++ "'")
          callback userData]) := by
  have h : composeSignalMatchFilter P I M =
      "type='signal',interface='" ++ I ++ "',member='" ++ M ++ "',path='" ++ P ++ "'" := by
    simp only [composeSignalMatchFilter, String.append_assoc, String.empty_append]
    rfl
  have hc : (self.registerSignalHandler sd P I M callback userData).calls =
      [.sd_bus_add_match self.bus_
        (c_str
          ("type='signal',interface='" ++ I ++ "',member='" ++ M ++ "',path='" ++ P ++ "'"))
        callback userData] := by
    unfold registerSignalHandler
    rw [h]
    simp only []
    split <;> rfl
  refine ⟨h, ?_, hc, ?_⟩
  · rw [h]
    simp only [String.join, List.foldl, String.append_assoc, String.empty_append]
    rfl
  · intro hP hI hM
    rw [hc, c_str_of_no_nul _ (no_nul_in_rule P I M hP hI hM)]

/-- C6, amended, at a concrete input without NUL. -/
theorem signal_match_rule_text_witness :
    ((connWith []).registerSignalHandler idleBus "/org/demo" "org.demo.Iface" "Changed"
        11 12).calls =
      [.sd_bus_add_match (connWith []).bus_
        ("type='signal',interface='" ++ "org.demo.Iface" ++ "',member='" ++ "Changed" ++
          "',path='" ++ "/org/demo" ++ "'")
        11 12] :=
  (signal_match_rule_text (connWith []) idleBus "/org/demo" "org.demo.Iface" "Changed"
    11 12).2.2.2 (by decide) (by decide) (by decide)

/-! ### The connection factory -/

theorem isEmpty_eq_false_of_ne (name : String) (h : name ≠ "") : name.isEmpty = false := by
  cases hb : name.isEmpty with
  | false => rfl
  | true => exact absurd ((String.isEmpty_iff name).mp hb) h

theorem mk__eq (sd : SdBus) (type : BusType) :
    EventLoopConnection.mk_ sd type =
      if openAnswer sd type < 0 then
        ⟨.error ⟨"Failed to open bus", -openAnswer sd type⟩, [openCallOf type]⟩
      else if sd.sd_bus_flush < 0 then
        ⟨.error ⟨"Failed to flush bus on opening", -sd.sd_bus_flush⟩,
          [openCallOf type, .sd_bus_flush sd.bus, .sd_bus_flush_close_unref sd.bus]⟩
      else ⟨.ok ⟨sd.bus, [], type⟩, [openCallOf type, .sd_bus_flush sd.bus]⟩ := by
  cases type <;> by_cases h1 : sd.sd_bus_open_system < 0 <;>
    by_cases h1' : sd.sd_bus_open_user < 0 <;> by_cases h2 : sd.sd_bus_flush < 0 <;>
    simp [EventLoopConnection.mk_, openBus, finishHandshake, SDBUS_THROW_ERROR_IF,
      openAnswer, openCallOf, h1, h1', h2]

theorem createSystemEventConnection_eq (sd : SdBus) (name : String) :
    createSystemEventConnection sd name =
      if sd.sd_bus_open_system < 0 then
        ⟨.error ⟨"Failed to open bus", -sd.sd_bus_open_system⟩, [.sd_bus_open_system]⟩
      else if sd.sd_bus_flush < 0 then
        ⟨.error ⟨"Failed to flush bus on opening", -sd.sd_bus_flush⟩,
          [.sd_bus_open_system, .sd_bus_flush sd.bus, .sd_bus_flush_close_unref sd.bus]⟩
      else if name = "" then
        ⟨.ok ⟨sd.bus, [], .eSystem⟩, [.sd_bus_open_system, .sd_bus_flush sd.bus]⟩
      else if sd.sd_bus_request_name (c_str name) < 0 then
        ⟨.error ⟨"Failed to request bus name", -sd.sd_bus_request_name (c_str name)⟩,
          [.sd_bus_open_system, .sd_bus_flush sd.bus, .sd_bus_request_name sd.bus (c_str name),
            .sd_bus_flush_close_unref sd.bus]⟩
      else
        ⟨.ok ⟨sd.bus, [], .eSystem⟩,
          [.sd_bus_open_system, .sd_bus_flush sd.bus, .sd_bus_request_name sd.bus (c_str name)]⟩ := by
  unfold createSystemEventConnection
  rw [mk__eq]
  simp only [openAnswer, openCallOf]
  by_cases h1 : sd.sd_bus_open_system < 0
  · simp [h1]
  by_cases h2 : sd.sd_bus_flush < 0
  · simp [h1, h2]
  by_cases h3 : name = ""
  · subst h3
    have he : "".isEmpty = true := rfl
    simp [h1, h2, he]
  have h3' := isEmpty_eq_false_of_ne name h3
  by_cases h4 : sd.sd_bus_request_name (c_str name) < 0 <;>
    simp [h1, h2, h3, h3', h4, requestName, SDBUS_THROW_ERROR_IF]

theorem createSessionEventConnection_eq (sd : SdBus) (name : String) :
    createSessionEventConnection sd name =
      if sd.sd_bus_open_user < 0 then
        ⟨.error ⟨"Failed to open bus", -sd.sd_bus_open_user⟩, [.sd_bus_open_user]⟩
      else if sd.sd_bus_flush < 0 then
        ⟨.error ⟨"Failed to flush bus on opening", -sd.sd_bus_flush⟩,
          [.sd_bus_open_user, .sd_bus_flush sd.bus, .sd_bus_flush_close_unref sd.bus]⟩
      else if name = "" then
        ⟨.ok ⟨sd.bus, [], .eSession⟩, [.sd_bus_open_user, .sd_bus_flush sd.bus]⟩
      else if sd.sd_bus_request_name (c_str name) < 0 then
        ⟨.error ⟨"Failed to request bus name", -sd.sd_bus_request_name (c_str name)⟩,
          [.sd_bus_open_user, .sd_bus_flush sd.bus, .sd_bus_request_name sd.bus (c_str name),
            .sd_bus_flush_close_unref sd.bus]⟩
      else
        ⟨.ok ⟨sd.bus, [], .eSession⟩,
          [.sd_bus_open_user, .sd_bus_flush sd.bus, .sd_bus_request_name sd.bus (c_str name)]⟩ := by
  unfold createSessionEventConnection
  rw [mk__eq]
  simp only [openAnswer, openCallOf]
  by_cases h1 : sd.sd_bus_open_user < 0
  · simp [h1]
  by_cases h2 : sd.sd_bus_flush < 0
  · simp [h1, h2]
  by_cases h3 : name = ""
  · subst h3
    have he : "".isEmpty = true := rfl
    simp [h1, h2, he]
  have h3' := isEmpty_eq_false_of_ne name h3
  by_cases h4 : sd.sd_bus_request_name (c_str name) < 0 <;>
    simp [h1, h2, h3, h3', h4, requestName, SDBUS_THROW_ERROR_IF]

/-- C7, as stated, fails: the name NUL, `x` is not empty, the system bus opens and
the handshake succeeds, and the one name-request call the factory makes is for
the empty name, not for that name. -/
theorem factory_name_request_counterexample :
    nulBusName ≠ "" ∧ 0 ≤ idleBus.sd_bus_open_system ∧ 0 ≤ idleBus.sd_bus_flush ∧
    nameRequests (createSystemEventConnection idleBus nulBusName).calls = [""] ∧
    nameRequests (createSystemEventConnection idleBus nulBusName).calls ≠ [nulBusName] := by
  refine ⟨by decide, by decide, by decide, by decide, by decide⟩

/-- C7, amended: for both factory functions and every name.  With an empty name no
name-request call is made, whatever the bus answers.  With a non-empty name, once
the bus is opened and the handshake done, exactly one name-request call is made,
for the C string of that name, which is that name when it holds no NUL character,
and it comes right after the open call and the handshake flush; if it fails, the
factory throws the error of the name request with its code and returns no
connection; if it succeeds, the connection is returned and the three calls are
all that happened.  And whenever a connection is returned, the name-request calls
made before that are none for an empty name and exactly that one otherwise. -/
theorem factory_requests_name_once (sd : SdBus) (name : String) :
    (name = "" →
      nameRequests (createSystemEventConnection sd name).calls = [] ∧
      nameRequests (createSessionEventConnection sd name).calls = []) ∧
    (name ≠ "" → 0 ≤ sd.sd_bus_open_system → 0 ≤ sd.sd_bus_flush →
      nameRequests (createSystemEventConnection sd name).calls = [c_str name] ∧
      (Char.ofNat 0 ∉ name.data →
        nameRequests (createSystemEventConnection sd name).calls = [name]) ∧
      (createSystemEventConnection sd name).calls.take 3 =
        [.sd_bus_open_system, .sd_bus_flush sd.bus,
          .sd_bus_request_name sd.bus (c_str name)] ∧
      (sd.sd_bus_request_name (c_str name) < 0 →
        (createSystemEventConnection sd name).result =
          .error ⟨"Failed to request bus name", -sd.sd_bus_request_name (c_str name)⟩) ∧
      (0 ≤ sd.sd_bus_request_name (c_str name) →
        (createSystemEventConnection sd name).result = .ok ⟨sd.bus, [], .eSystem⟩ ∧
        (createSystemEventConnection sd name).calls =
          [.sd_bus_open_system, .sd_bus_flush sd.bus,
            .sd_bus_request_name sd.bus (c_str name)])) ∧
    (name ≠ "" → 0 ≤ sd.sd_bus_open_user → 0 ≤ sd.sd_bus_flush →
      nameRequests (createSessionEventConnection sd name).calls = [c_str name] ∧
      (Char.ofNat 0 ∉ name.data →
        nameRequests (createSessionEventConnection sd name).calls = [name]) ∧
      (createSessionEventConnection sd name).calls.take 3 =
        [.sd_bus_open_user, .sd_bus_flush sd.bus,
          .sd_bus_request_name sd.bus (c_str name)] ∧
      (sd.sd_bus_request_name (c_str name) < 0 →
        (createSessionEventConnection sd name).result =
          .error ⟨"Failed to request bus name", -sd.sd_bus_request_name (c_str name)⟩) ∧
      (0 ≤ sd.sd_bus_request_name (c_str name) →
        (createSessionEventConnection sd name).result = .ok ⟨sd.bus, [], .eSession⟩ ∧
        (createSessionEventConnection sd name).calls =
          [.sd_bus_open_user, .sd_bus_flush sd.bus,
            .sd_bus_request_name sd.bus (c_str name)])) ∧
    (∀ conn, (createSystemEventConnection sd name).result = .ok conn →
      nameRequests (createSystemEventConnection sd name).calls =
        if name = "" then [] else [c_str name]) ∧
    (∀ conn, (createSessionEventConnection sd name).result = .ok conn →
      nameRequests (createSessionEventConnection sd name).calls =
        if name = "" then [] else [c_str name]) := by
  rw [createSystemEventConnection_eq, createSessionEventConnection_eq]
  refine ⟨?_, ?_, ?_, ?_, ?_⟩
  · intro h
    subst h
    constructor
    · by_cases h1 : sd.sd_bus_open_system < 0 <;> by_cases h2 : sd.sd_bus_flush < 0 <;>
        simp [h1, h2, nameRequests]
    · by_cases h1 : sd.sd_bus_open_user < 0 <;> by_cases h2 : sd.sd_bus_flush < 0 <;>
        simp [h1, h2, nameRequests]
  · intro hn ho hf
    have h1 : ¬ sd.sd_bus_open_system < 0 := not_lt.mpr ho
    have h2 : ¬ sd.sd_bus_flush < 0 := not_lt.mpr hf
    by_cases h4 : sd.sd_bus_request_name (c_str name) < 0
    · simp [h1, h2, hn, h4, nameRequests, not_le.mpr h4]
      exact fun h0 => c_str_of_no_nul name h0
    · simp [h1, h2, hn, h4, nameRequests]
      exact fun h0 => c_str_of_no_nul name h0
  · intro hn ho hf
    have h1 : ¬ sd.sd_bus_open_user < 0 := not_lt.mpr ho
    have h2 : ¬ sd.sd_bus_flush < 0 := not_lt.mpr hf
    by_cases h4 : sd.sd_bus_request_name (c_str name) < 0
    · simp [h1, h2, hn, h4, nameRequests, not_le.mpr h4]
      exact fun h0 => c_str_of_no_nul name h0
    · simp [h1, h2, hn, h4, nameRequests]
      exact fun h0 => c_str_of_no_nul name h0
  · intro conn
    by_cases h1 : sd.sd_bus_open_system < 0 <;> by_cases h2 : sd.sd_bus_flush < 0 <;>
      by_cases h3 : name = "" <;> by_cases h4 : sd.sd_bus_request_name (c_str name) < 0 <;>
      simp [h1, h2, h3, h4, nameRequests]
  · intro conn
    by_cases h1 : sd.sd_bus_open_user < 0 <;> by_cases h2 : sd.sd_bus_flush < 0 <;>
      by_cases h3 : name = "" <;> by_cases h4 : sd.sd_bus_request_name (c_str name) < 0 <;>
      simp [h1, h2, h3, h4, nameRequests]

/-- C7, amended, at concrete inputs: the empty name, a name without NUL that is
granted on the system bus, and a name that is refused on the session bus. -/
theorem factory_requests_name_once_witness :
    (nameRequests (createSystemEventConnection idleBus "").calls = [] ∧
      nameRequests (createSessionEventConnection idleBus "").calls = []) ∧
    nameRequests (createSystemEventConnection idleBus "org.sdbuscpp.demo").calls
      = ["org.sdbuscpp.demo"] ∧
    ((createSystemEventConnection idleBus "org.sdbuscpp.demo").result =
        .ok ⟨idleBus.bus, [], .eSystem⟩ ∧
      (createSystemEventConnection idleBus "org.sdbuscpp.demo").calls =
        [.sd_bus_open_system, .sd_bus_flush idleBus.bus,
          .sd_bus_request_name idleBus.bus (c_str "org.sdbuscpp.demo")]) ∧
    ((createSessionEventConnection
        { idleBus with sd_bus_request_name := fun _ => -17 } "org.sdbuscpp.demo").result =
      .error ⟨"Failed to request bus name", - (-17)⟩) :=
  ⟨(factory_requests_name_once idleBus "").1 rfl,
    ((factory_requests_name_once idleBus "org.sdbuscpp.demo").2.1
      (by decide) (by decide) (by decide)).2.1 (by decide),
    ((factory_requests_name_once idleBus "org.sdbuscpp.demo").2.1
      (by decide) (by decide) (by decide)).2.2.2.2 (by decide),
    ((factory_requests_name_once { idleBus with sd_bus_request_name := fun _ => -17 }
      "org.sdbuscpp.demo").2.2.1 (by decide) (by decide) (by decide)).2.2.2.1 (by decide)⟩

end Sdbus
